import Mathlib

/-!
Shallow embedding of the game logic in `src/App.svelte` (a two-player
turn-based disc-flicking football game on top of the Matter.js physics
engine).  Positions, velocities and all numeric configuration are modelled
as exact real numbers; `Math.hypot x y` is modelled as
`Real.sqrt (x^2 + y^2)`.  The physics integration itself is an external
collaborator and is not modelled: simulation ticks act on arbitrary body
snapshots.
-/

noncomputable section

open scoped Classical

/-! ### Configuration constants (App.svelte lines 6-19) -/

def width : ℝ := 900
def height : ℝ := 600
def PITCH_MARGIN : ℝ := 20
def WALL_THICK : ℝ := 40
def DISC_R : ℝ := 18
def BALL_R : ℝ := 10
def MAX_FLICK : ℝ := 24
def STOP_EPS : ℝ := 0.03
def GOAL_WIDTH : ℝ := 160

/-! ### Vectors and the hypot function -/

/-- A 2-D vector `{x, y}`. -/
@[ext]
structure Vec2 where
  x : ℝ
  y : ℝ


/-- Model of `Math.hypot x y`. -/
def hypot (x y : ℝ) : ℝ := Real.sqrt (x ^ 2 + y ^ 2)

/-- Magnitude of a vector, `Math.hypot(vec.x, vec.y)`. -/
def vmag (v : Vec2) : ℝ := hypot v.x v.y

/-! ### Bodies and game state -/

/-- Which side is to move: `currentSide` is `'A'` or `'B'`. -/
inductive Side
  | A
  | B
deriving DecidableEq

/-- `currentSide === 'A' ? 'B' : 'A'` (line 54). -/
def flipSide : Side → Side
  | Side.A => Side.B
  | Side.B => Side.A

/-- Identity of a circular body: the ball, or a disc of one of the teams
(`teamA` and `teamB` each hold exactly three discs). -/
inductive BodyId
  | ball
  | discA (i : Fin 3)
  | discB (i : Fin 3)
deriving DecidableEq

/-- The mutable physical state of one rigid body. -/
@[ext]
structure BodyState where
  position : Vec2
  velocity : Vec2
  angularVelocity : ℝ


/-- The circular bodies of the world: the ball plus the two rosters. -/
@[ext]
structure Bodies where
  ball : BodyState
  teamA : Fin 3 → BodyState
  teamB : Fin 3 → BodyState

/-- Look a body up by identity. -/
def bodyState (bs : Bodies) : BodyId → BodyState
  | BodyId.ball => bs.ball
  | BodyId.discA i => bs.teamA i
  | BodyId.discB i => bs.teamB i

/-- `b.circleRadius`: the ball is created with radius `BALL_R`, every disc
with radius `DISC_R` (lines 232, 240-248). -/
def circleRadius : BodyId → ℝ
  | BodyId.ball => BALL_R
  | _ => DISC_R

/-- `Body.setVelocity` for one identified body. -/
def setVelocityBody (bs : Bodies) : BodyId → Vec2 → Bodies
  | BodyId.ball, v => { bs with ball := { bs.ball with velocity := v } }
  | BodyId.discA i, v =>
      { bs with teamA := Function.update bs.teamA i { bs.teamA i with velocity := v } }
  | BodyId.discB i, v =>
      { bs with teamB := Function.update bs.teamB i { bs.teamB i with velocity := v } }

/-- The whole mutable state of the component: the bodies plus the aim/UI
variables (lines 32-34) and the turn/score variables (lines 37-39). -/
@[ext]
structure GameState where
  bodies : Bodies
  aiming : Bool
  aimedBody : Option BodyId
  mousePos : Vec2
  currentSide : Side
  waitingForSettle : Bool
  scoreA : ℕ
  scoreB : ℕ

/-! ### allStopped and switchTurnIfSettle (lines 46-56) -/

/-- `const bodies = [ball, ...teamA, ...teamB]` (line 47). -/
def trackedList (bs : Bodies) : List BodyState :=
  [bs.ball, bs.teamA 0, bs.teamA 1, bs.teamA 2, bs.teamB 0, bs.teamB 1, bs.teamB 2]

/-- `allStopped()`: every tracked body has
`Math.hypot(b.velocity.x, b.velocity.y) < STOP_EPS` (lines 46-49). -/
def allStoppedBodies (bs : Bodies) : Prop :=
  ∀ b ∈ trackedList bs, hypot b.velocity.x b.velocity.y < STOP_EPS

/-- `switchTurnIfSettle()` (lines 51-56). -/
def switchTurnIfSettle (s : GameState) : GameState :=
  if s.waitingForSettle = true ∧ allStoppedBodies s.bodies then
    { s with waitingForSettle := false, currentSide := flipSide s.currentSide }
  else s

/-! ### Ownership and the flick cap (lines 58-67) -/

/-- `isOwnPiece(b)`: membership of `b` in the current side's roster
(lines 58-60). -/
def isOwnPiece (s : GameState) (b : BodyId) : Bool :=
  match s.currentSide with
  | Side.A => match b with | BodyId.discA _ => true | _ => false
  | Side.B => match b with | BodyId.discB _ => true | _ => false

/-- The disc of the given side in roster slot `i`. -/
def sideDisc : Side → Fin 3 → BodyId
  | Side.A, i => BodyId.discA i
  | Side.B, i => BodyId.discB i

/-- `clampFlick(vec)` (lines 62-67): if the magnitude exceeds `MAX_FLICK`,
scale the vector by `MAX_FLICK / (mag || 1)`; the JavaScript guard
`mag || 1` substitutes `1` exactly when `mag` is `0`. -/
def clampFlick (vec : Vec2) : Vec2 :=
  if vmag vec ≤ MAX_FLICK then vec
  else
    let s := MAX_FLICK / (if vmag vec = 0 then 1 else vmag vec)
    ⟨vec.x * s, vec.y * s⟩

/-! ### Pitch geometry (addPitch, lines 79-97) -/

/-- An axis-aligned rectangle given by center and size, as passed to
`Bodies.rectangle(cx, cy, w, h)`. -/
structure RectSpec where
  cx : ℝ
  cy : ℝ
  w : ℝ
  h : ℝ


def goalX1 : ℝ := width / 2 - GOAL_WIDTH / 2
def goalX2 : ℝ := width / 2 + GOAL_WIDTH / 2

/-- Top-left goal post bar (line 91). -/
def topL : RectSpec := ⟨goalX1 / 2, PITCH_MARGIN + 10, goalX1 - PITCH_MARGIN, 8⟩
/-- Top-right goal post bar (line 92). -/
def topR : RectSpec :=
  ⟨(goalX2 + width - PITCH_MARGIN) / 2, PITCH_MARGIN + 10, (width - PITCH_MARGIN) - goalX2, 8⟩
/-- Bottom-left goal post bar (line 93). -/
def botL : RectSpec := ⟨goalX1 / 2, height - PITCH_MARGIN - 10, goalX1 - PITCH_MARGIN, 8⟩
/-- Bottom-right goal post bar (line 94). -/
def botR : RectSpec :=
  ⟨(goalX2 + width - PITCH_MARGIN) / 2, height - PITCH_MARGIN - 10, (width - PITCH_MARGIN) - goalX2, 8⟩

/-- Left end of the horizontal span of a rectangle. -/
def spanLo (r : RectSpec) : ℝ := r.cx - r.w / 2
/-- Right end of the horizontal span of a rectangle. -/
def spanHi (r : RectSpec) : ℝ := r.cx + r.w / 2

/-! ### resetPositions and reset (lines 99-124, 209-211) -/

/-- The array `[-1, 0, 1]` indexed by slot (line 109). -/
def slotOffset : Fin 3 → ℝ := ![-1, 0, 1]

/-- The body layout written by `resetPositions` (lines 100-120): ball at
pitch center, team A discs at `y = height - 160`, team B discs at
`y = 160`, slot `idx` at `x = width/2 + slotOffset idx * 80`, all linear
and angular velocities zero. -/
def resetBodies : Bodies :=
  let yA := height - 160
  let yB := (160 : ℝ)
  let spacing := (80 : ℝ)
  { ball := { position := ⟨width / 2, height / 2⟩, velocity := ⟨0, 0⟩, angularVelocity := 0 },
    teamA := fun idx =>
      { position := ⟨width / 2 + slotOffset idx * spacing, yA⟩,
        velocity := ⟨0, 0⟩, angularVelocity := 0 },
    teamB := fun idx =>
      { position := ⟨width / 2 + slotOffset idx * spacing, yB⟩,
        velocity := ⟨0, 0⟩, angularVelocity := 0 } }

/-- `resetPositions()` (lines 99-124): reposition every body to the
canonical layout and set `currentSide = 'A'`, `waitingForSettle = false`.
Scores and the aim/UI variables are not touched. -/
def resetPositions (s : GameState) : GameState :=
  { s with bodies := resetBodies, currentSide := Side.A, waitingForSettle := false }

/-- The `reset()` function wired to the Reset button (lines 209-211). -/
def reset (s : GameState) : GameState := resetPositions s

/-! ### checkGoals (lines 126-140) -/

/-- `withinGap` for a ball position (line 129). -/
def withinGap (bs : Bodies) : Prop :=
  width / 2 - GOAL_WIDTH / 2 < bs.ball.position.x ∧
    bs.ball.position.x < width / 2 + GOAL_WIDTH / 2

/-- `checkGoals()` (lines 126-140). -/
def checkGoals (s : GameState) : GameState :=
  if withinGap s.bodies ∧ s.bodies.ball.position.y < PITCH_MARGIN + 6 then
    resetPositions { s with scoreA := s.scoreA + 1 }
  else if withinGap s.bodies ∧ height - PITCH_MARGIN - 6 < s.bodies.ball.position.y then
    resetPositions { s with scoreB := s.scoreB + 1 }
  else s

/-- Neither goal condition holds for this body snapshot. -/
def noGoal (bs : Bodies) : Prop :=
  ¬(withinGap bs ∧ bs.ball.position.y < PITCH_MARGIN + 6) ∧
    ¬(withinGap bs ∧ height - PITCH_MARGIN - 6 < bs.ball.position.y)

/-! ### Body picking (pickBodyAt, lines 159-168) -/

/-- Distance from a body's center to a query position (line 163). -/
def distTo (b : BodyState) (pos : Vec2) : ℝ :=
  hypot (b.position.x - pos.x) (b.position.y - pos.y)

/-- The circular bodies of `Composite.allBodies(engine.world)` in
registration order (line 250): the ball, then team A, then team B; the
eight static wall/post rectangles come earlier but have no
`circleRadius` and are skipped by the loop. -/
def circleOrder : List BodyId :=
  [BodyId.ball,
   BodyId.discA 0, BodyId.discA 1, BodyId.discA 2,
   BodyId.discB 0, BodyId.discB 1, BodyId.discB 2]

/-- `pos` is within `circleRadius + 1` of the body's center (line 164). -/
def inRange (bs : Bodies) (pos : Vec2) (b : BodyId) : Prop :=
  distTo (bodyState bs b) pos ≤ circleRadius b + 1

/-- The `for`-loop of `pickBodyAt`: return the first body in the list
within `circleRadius + 1` of `pos` (lines 161-166). -/
def findCircle (bs : Bodies) (pos : Vec2) : List BodyId → Option BodyId
  | [] => none
  | b :: rest =>
    if distTo (bodyState bs b) pos ≤ circleRadius b + 1 then some b
    else findCircle bs pos rest

/-- `pickBodyAt(pos)` (lines 159-168). -/
def pickBodyAt (bs : Bodies) (pos : Vec2) : Option BodyId :=
  findCircle bs pos circleOrder

/-! ### Pointer handlers (attachInputHandlers, lines 170-207) -/

/-- The `down` handler (lines 171-180): when no settle is pending it
stores the cursor position in `mousePos`, picks the body under the
cursor, and opens an aim session when the pick is an own non-ball
disc. -/
def onPointerDown (s : GameState) (pos : Vec2) : GameState :=
  if s.waitingForSettle = true then s
  else
    match pickBodyAt s.bodies pos with
    | some picked =>
        if picked ≠ BodyId.ball ∧ isOwnPiece s picked = true then
          { s with mousePos := pos, aimedBody := some picked, aiming := true }
        else { s with mousePos := pos }
    | none => { s with mousePos := pos }

/-- The `move` handler (lines 181-184). -/
def onPointerMove (s : GameState) (pos : Vec2) : GameState :=
  { s with mousePos := pos }

/-- `raw = { x: from.x - mousePos.x, y: from.y - mousePos.y }` where
`from` is the aimed body's position (lines 188-189). -/
def rawDrag (s : GameState) (d : BodyId) : Vec2 :=
  ⟨(bodyState s.bodies d).position.x - s.mousePos.x,
   (bodyState s.bodies d).position.y - s.mousePos.y⟩

/-- The `up` handler (lines 185-196). -/
def onPointerUp (s : GameState) : GameState :=
  if s.aiming = true then
    match s.aimedBody with
    | some d =>
        { s with
            bodies := setVelocityBody s.bodies d (clampFlick (rawDrag s d)),
            aiming := false, aimedBody := none, waitingForSettle := true }
    | none => s
  else s

/-! ### Simulation ticks (afterUpdate hook, lines 258-261) -/

/-- One `afterUpdate` callback: `checkGoals(); switchTurnIfSettle();`. -/
def tick (s : GameState) : GameState :=
  switchTurnIfSettle (checkGoals s)

/-- Install a physics snapshot of all bodies (the effect of the engine's
integration between our callbacks). -/
def setBodies (s : GameState) (b : Bodies) : GameState := { s with bodies := b }

/-- Run a sequence of simulation ticks, each preceded by the physics
engine replacing the body snapshot. -/
def settleRun (s : GameState) (snaps : List Bodies) : GameState :=
  snaps.foldl (fun t b => tick (setBodies t b)) s

/-- The session invariant: an open aim session implies the settle flag is
down. -/
def sessionInv (s : GameState) : Prop :=
  s.aiming = true → s.waitingForSettle = false

/-! ### Initial state (onMount, lines 213-261) -/

/-- A body at rest at the given coordinates, as created by
`Bodies.circle` / `makeDisc`. -/
def restBody (x y : ℝ) : BodyState :=
  { position := ⟨x, y⟩, velocity := ⟨0, 0⟩, angularVelocity := 0 }

/-- The bodies as created in `onMount` (lines 232-248). -/
def initBodies : Bodies :=
  { ball := restBody (width / 2) (height / 2),
    teamA := ![restBody (width / 2 - 80) (height - 160),
               restBody (width / 2) (height - 160),
               restBody (width / 2 + 80) (height - 160)],
    teamB := ![restBody (width / 2 - 80) 160,
               restBody (width / 2) 160,
               restBody (width / 2 + 80) 160] }

/-- The component state right after `onMount`: fresh bodies and the
declared initial values of the script-level variables
(lines 32-39). -/
def initialState : GameState :=
  { bodies := initBodies,
    aiming := false,
    aimedBody := none,
    mousePos := ⟨0, 0⟩,
    currentSide := Side.A,
    waitingForSettle := false,
    scoreA := 0,
    scoreB := 0 }

/-! ### Concrete states used by witnesses and counterexamples -/

/-- An aim session on disc A0 with the cursor 30 units left of the disc:
the drag vector at release is `(30, 0)`. -/
def w1State : GameState :=
  { initialState with
      aiming := true, aimedBody := some (BodyId.discA 0), mousePos := ⟨340, 440⟩ }

/-- An aim session on disc A1 during side A's turn. -/
def w2Start : GameState :=
  { initialState with
      aiming := true, aimedBody := some (BodyId.discA 1), mousePos := ⟨450, 500⟩ }

/-- A snapshot in which the ball is still moving at speed 1. -/
def w2Mid : Bodies :=
  { initBodies with
      ball := { position := ⟨width / 2, height / 2⟩, velocity := ⟨1, 0⟩, angularVelocity := 0 } }

/-- A state whose ball sits at `(width/2, PITCH_MARGIN + 3)`, inside the
top goal gap. -/
def w3State : GameState :=
  { initialState with
      bodies := { initBodies with ball := restBody (width / 2) (PITCH_MARGIN + 3) } }

/-- A state in which a settle is pending. -/
def w4State : GameState := { initialState with waitingForSettle := true }

/-- Bodies with discs A0 and A1 36 units apart (touching, not
overlapping); the query point `c7Pos` is within pick range of both. -/
def c7Bodies : Bodies :=
  { ball := restBody 450 300,
    teamA := ![restBody 100 300, restBody 136 300, restBody 700 100],
    teamB := ![restBody 700 500, restBody 750 500, restBody 800 500] }

/-- A query position 19 units from disc A0's center and 17 units from
disc A1's center. -/
def c7Pos : Vec2 := ⟨119, 300⟩

/-- An open aim session targeting disc A0, with the table idle. -/
def c9State : GameState :=
  { initialState with aiming := true, aimedBody := some (BodyId.discA 0) }

/-- The initial position of disc A2. -/
def c9Pos : Vec2 := ⟨530, 440⟩

/-! ### Generic lemmas about hypot -/

theorem hypot_nonneg (x y : ℝ) : 0 ≤ hypot x y := Real.sqrt_nonneg _

theorem hypot_le_iff (x y : ℝ) {c : ℝ} (hc : 0 ≤ c) :
    hypot x y ≤ c ↔ x ^ 2 + y ^ 2 ≤ c ^ 2 := by
  unfold hypot; exact Real.sqrt_le_left hc

theorem hypot_lt_iff (x y : ℝ) {c : ℝ} (hc : 0 < c) :
    hypot x y < c ↔ x ^ 2 + y ^ 2 < c ^ 2 := by
  unfold hypot; exact Real.sqrt_lt' hc

theorem lt_hypot_iff {c : ℝ} (hc : 0 ≤ c) (x y : ℝ) :
    c < hypot x y ↔ c ^ 2 < x ^ 2 + y ^ 2 := by
  unfold hypot; exact Real.lt_sqrt hc

theorem hypot_eq (x y : ℝ) {c : ℝ} (hc : 0 ≤ c) (h : x ^ 2 + y ^ 2 = c ^ 2) :
    hypot x y = c := by
  unfold hypot; rw [h, Real.sqrt_sq hc]

theorem hypot_zero : hypot 0 0 = 0 := by
  unfold hypot; simp

theorem bodyState_setVelocityBody_self (bs : Bodies) (d : BodyId) (v : Vec2) :
    bodyState (setVelocityBody bs d v) d = { bodyState bs d with velocity := v } := by
  cases d <;> simp [bodyState, setVelocityBody, Function.update_same]

/-! ### C1: the flick cap -/

/-- C1: at flick release the velocity written to the flicked disc equals
`clampFlick` of the drag vector `(disc.position - cursor.position)`; the
cap is the identity for magnitudes at most `MAX_FLICK`, scales larger
vectors to magnitude exactly `MAX_FLICK`, always yields a speed at most
`MAX_FLICK`, and a zero-length drag yields the zero velocity (no division
by zero occurs: the guarded divisor is never zero). -/
theorem flick_cap_spec (s : GameState) (d : BodyId)
    (hA : s.aiming = true) (hB : s.aimedBody = some d) :
    (bodyState (onPointerUp s).bodies d).velocity = clampFlick (rawDrag s d) ∧
    (∀ v : Vec2, vmag v ≤ MAX_FLICK → clampFlick v = v) ∧
    (∀ v : Vec2, MAX_FLICK < vmag v → vmag (clampFlick v) = MAX_FLICK) ∧
    (∀ v : Vec2, vmag (clampFlick v) ≤ MAX_FLICK) ∧
    clampFlick ⟨0, 0⟩ = ⟨0, 0⟩ := by
  have hMpos : (0 : ℝ) < MAX_FLICK := by norm_num [MAX_FLICK]
  have hid : ∀ v : Vec2, vmag v ≤ MAX_FLICK → clampFlick v = v := by
    intro v h
    unfold clampFlick
    rw [if_pos h]
  have hcap : ∀ v : Vec2, MAX_FLICK < vmag v → vmag (clampFlick v) = MAX_FLICK := by
    intro v h
    have hmpos : 0 < vmag v := lt_trans hMpos h
    have hm0 : vmag v ≠ 0 := ne_of_gt hmpos
    have hspos : 0 ≤ MAX_FLICK / vmag v := (div_pos hMpos hmpos).le
    unfold clampFlick
    rw [if_neg (not_le.mpr h), if_neg hm0]
    show vmag ⟨v.x * (MAX_FLICK / vmag v), v.y * (MAX_FLICK / vmag v)⟩ = MAX_FLICK
    have key : (v.x * (MAX_FLICK / vmag v)) ^ 2 + (v.y * (MAX_FLICK / vmag v)) ^ 2
        = (v.x ^ 2 + v.y ^ 2) * (MAX_FLICK / vmag v) ^ 2 := by ring
    show hypot (v.x * (MAX_FLICK / vmag v)) (v.y * (MAX_FLICK / vmag v)) = MAX_FLICK
    unfold hypot
    rw [key, Real.sqrt_mul' _ (sq_nonneg _), Real.sqrt_sq hspos]
    have hself : Real.sqrt (v.x ^ 2 + v.y ^ 2) = vmag v := rfl
    rw [hself, mul_comm, div_mul_cancel₀ _ hm0]
  have hle : ∀ v : Vec2, vmag (clampFlick v) ≤ MAX_FLICK := by
    intro v
    by_cases h : vmag v ≤ MAX_FLICK
    · rw [hid v h]; exact h
    · rw [hcap v (not_le.mp h)]
  have hzero : clampFlick ⟨0, 0⟩ = ⟨0, 0⟩ := by
    apply hid
    show hypot 0 0 ≤ MAX_FLICK
    rw [hypot_zero]
    exact hMpos.le
  refine ⟨?_, hid, hcap, hle, hzero⟩
  simp only [onPointerUp, hA, hB, if_true]
  rw [bodyState_setVelocityBody_self]

/-- Witness for `flick_cap_spec`: in the concrete state `w1State` the drag
vector is `(30, 0)`, which exceeds the cap, and the written velocity is
the capped vector of magnitude exactly `MAX_FLICK`. -/
theorem flick_cap_spec_witness :
    (bodyState (onPointerUp w1State).bodies (BodyId.discA 0)).velocity
        = clampFlick (rawDrag w1State (BodyId.discA 0)) ∧
    vmag (clampFlick (rawDrag w1State (BodyId.discA 0))) = MAX_FLICK := by
  have h := flick_cap_spec w1State (BodyId.discA 0) rfl rfl
  refine ⟨h.1, ?_⟩
  apply h.2.2.1
  have hraw : rawDrag w1State (BodyId.discA 0) = ⟨30, 0⟩ := by
    show (⟨(bodyState w1State.bodies (BodyId.discA 0)).position.x - w1State.mousePos.x,
           (bodyState w1State.bodies (BodyId.discA 0)).position.y - w1State.mousePos.y⟩ : Vec2)
        = ⟨30, 0⟩
    have hb : bodyState w1State.bodies (BodyId.discA 0)
        = restBody (width / 2 - 80) (height - 160) := rfl
    rw [hb]
    ext <;> simp [restBody, w1State, initialState, width, height] <;> norm_num
  rw [hraw]
  have h30 : vmag ⟨30, 0⟩ = 30 := by
    show hypot 30 0 = 30
    exact hypot_eq 30 0 (by norm_num) (by norm_num)
  rw [h30]
  norm_num [MAX_FLICK]

/-! ### C2: settle evaluation and turn alternation -/

theorem checkGoals_eq_self {s : GameState} (h : noGoal s.bodies) : checkGoals s = s := by
  unfold checkGoals
  rw [if_neg h.1, if_neg h.2]

theorem settleRun_steady (l : List Bodies) :
    ∀ t : GameState, (∀ b ∈ l, ¬ allStoppedBodies b ∧ noGoal b) →
      (settleRun t l).currentSide = t.currentSide ∧
      (settleRun t l).waitingForSettle = t.waitingForSettle := by
  induction l with
  | nil => intro t _; exact ⟨rfl, rfl⟩
  | cons b rest ih =>
    intro t h
    have hb := h b (List.mem_cons_self b rest)
    have hrest : ∀ x ∈ rest, ¬ allStoppedBodies x ∧ noGoal x :=
      fun x hx => h x (List.mem_cons_of_mem b hx)
    have hstep : tick (setBodies t b) = setBodies t b := by
      unfold tick
      rw [checkGoals_eq_self hb.2]
      unfold switchTurnIfSettle
      rw [if_neg]
      intro hcon
      exact hb.1 hcon.2
    have hfold : settleRun t (b :: rest) = settleRun (tick (setBodies t b)) rest := rfl
    rw [hfold, hstep]
    exact ih (setBodies t b) hrest

theorem allStopped_initBodies : allStoppedBodies initBodies := by
  intro b hb
  fin_cases hb <;>
    · simp only [initBodies, restBody, Matrix.cons_val_zero, Matrix.cons_val_one,
        Matrix.cons_val_two, Matrix.head_cons, Matrix.tail_cons]
      rw [hypot_zero]
      norm_num [STOP_EPS]

theorem noGoal_center_ball {bs : Bodies} (h : bs.ball.position.y = height / 2) :
    noGoal bs := by
  constructor
  · rintro ⟨-, hy⟩
    rw [h] at hy
    norm_num [height, PITCH_MARGIN] at hy
  · rintro ⟨-, hy⟩
    rw [h] at hy
    norm_num [height, PITCH_MARGIN] at hy

/-- C2: while a settle is pending, a simulation tick flips the side and
clears the settle flag exactly when every tracked body has speed below
`STOP_EPS`, and leaves both unchanged otherwise; the side never changes
without a pending settle and an all-stopped table; and a full
flick-then-settle cycle from `{A, idle}` ends in `{B, idle}`. -/
theorem turn_settle_spec (s : GameState) (d : BodyId) (snaps : List Bodies) (bfin : Bodies) :
    (s.waitingForSettle = true → allStoppedBodies s.bodies →
      switchTurnIfSettle s
        = { s with waitingForSettle := false, currentSide := flipSide s.currentSide }) ∧
    (s.waitingForSettle = true → ¬ allStoppedBodies s.bodies → switchTurnIfSettle s = s) ∧
    ((switchTurnIfSettle s).currentSide ≠ s.currentSide →
      s.waitingForSettle = true ∧ allStoppedBodies s.bodies) ∧
    (s.currentSide = Side.A → s.waitingForSettle = false → s.aiming = true →
      s.aimedBody = some d →
      (∀ b ∈ snaps, ¬ allStoppedBodies b ∧ noGoal b) →
      allStoppedBodies bfin → noGoal bfin →
      (settleRun (onPointerUp s) (snaps ++ [bfin])).currentSide = Side.B ∧
      (settleRun (onPointerUp s) (snaps ++ [bfin])).waitingForSettle = false) := by
  refine ⟨?_, ?_, ?_, ?_⟩
  · intro h1 h2
    unfold switchTurnIfSettle
    rw [if_pos ⟨h1, h2⟩]
  · intro h1 h2
    unfold switchTurnIfSettle
    rw [if_neg (fun hc => h2 hc.2)]
  · intro hne
    by_cases hc : s.waitingForSettle = true ∧ allStoppedBodies s.bodies
    · exact hc
    · exfalso
      apply hne
      unfold switchTurnIfSettle
      rw [if_neg hc]
  · intro hA hw ha hb hsn hfin hgoal
    have hs1c : (onPointerUp s).currentSide = Side.A := by
      simp only [onPointerUp, ha, hb, if_true]
      exact hA
    have hs1w : (onPointerUp s).waitingForSettle = true := by
      simp only [onPointerUp, ha, hb, if_true]
    obtain ⟨hc1, hw1⟩ := settleRun_steady snaps (onPointerUp s) hsn
    have happ : settleRun (onPointerUp s) (snaps ++ [bfin])
        = tick (setBodies (settleRun (onPointerUp s) snaps) bfin) := by
      unfold settleRun
      rw [List.foldl_append]
      rfl
    rw [happ]
    unfold tick
    rw [checkGoals_eq_self hgoal]
    unfold switchTurnIfSettle
    rw [if_pos ⟨by rw [show (setBodies (settleRun (onPointerUp s) snaps) bfin).waitingForSettle
            = (settleRun (onPointerUp s) snaps).waitingForSettle from rfl, hw1, hs1w],
          hfin⟩]
    constructor
    · show flipSide (settleRun (onPointerUp s) snaps).currentSide = Side.B
      rw [hc1, hs1c]
      rfl
    · rfl

/-- Witness for `turn_settle_spec`: from the concrete aim session
`w2Start` (side A to move, idle), releasing the flick and then running a
tick in which the ball still moves followed by a tick with every body
stopped ends with side B to move and no settle pending. -/
theorem turn_settle_spec_witness :
    (settleRun (onPointerUp w2Start) ([w2Mid] ++ [initBodies])).currentSide = Side.B ∧
    (settleRun (onPointerUp w2Start) ([w2Mid] ++ [initBodies])).waitingForSettle = false := by
  apply (turn_settle_spec w2Start (BodyId.discA 1) [w2Mid] initBodies).2.2.2
  · rfl
  · rfl
  · rfl
  · rfl
  · intro b hbmem
    have hb : b = w2Mid := by simpa using hbmem
    subst hb
    constructor
    · intro hall
      have hball := hall w2Mid.ball (by simp [trackedList])
      have hx : w2Mid.ball.velocity.x = 1 := rfl
      have hy : w2Mid.ball.velocity.y = 0 := rfl
      rw [hx, hy, @hypot_eq 1 0 1 (by norm_num) (by norm_num)] at hball
      norm_num [STOP_EPS] at hball
    · exact noGoal_center_ball rfl
  · exact allStopped_initBodies
  · exact noGoal_center_ball rfl

/-! ### C3: goal detection -/

/-- C3: on a simulation tick, a ball inside the goal gap above the top
goal line scores for A (score +1, canonical reset, `{A, idle}`), below
the bottom goal line scores for B symmetrically, and otherwise scores
and turn state are untouched; in particular a ball at
`(width/2, PITCH_MARGIN + 3)` yields `scoreA + 1` and a ball reset to
pitch center. -/
theorem goal_detection_spec (s : GameState) :
    (withinGap s.bodies → s.bodies.ball.position.y < PITCH_MARGIN + 6 →
      (checkGoals s).scoreA = s.scoreA + 1 ∧ (checkGoals s).scoreB = s.scoreB ∧
      (checkGoals s).bodies = resetBodies ∧
      (checkGoals s).currentSide = Side.A ∧ (checkGoals s).waitingForSettle = false) ∧
    (withinGap s.bodies → height - PITCH_MARGIN - 6 < s.bodies.ball.position.y →
      (checkGoals s).scoreB = s.scoreB + 1 ∧ (checkGoals s).scoreA = s.scoreA ∧
      (checkGoals s).bodies = resetBodies ∧
      (checkGoals s).currentSide = Side.A ∧ (checkGoals s).waitingForSettle = false) ∧
    (noGoal s.bodies → checkGoals s = s) ∧
    (s.bodies.ball.position.x = width / 2 → s.bodies.ball.position.y = PITCH_MARGIN + 3 →
      (checkGoals s).scoreA = s.scoreA + 1 ∧
      (checkGoals s).bodies.ball.position = ⟨width / 2, height / 2⟩) := by
  have h1 : withinGap s.bodies → s.bodies.ball.position.y < PITCH_MARGIN + 6 →
      (checkGoals s).scoreA = s.scoreA + 1 ∧ (checkGoals s).scoreB = s.scoreB ∧
      (checkGoals s).bodies = resetBodies ∧
      (checkGoals s).currentSide = Side.A ∧ (checkGoals s).waitingForSettle = false := by
    intro hg hy
    unfold checkGoals
    rw [if_pos ⟨hg, hy⟩]
    exact ⟨rfl, rfl, rfl, rfl, rfl⟩
  refine ⟨h1, ?_, checkGoals_eq_self, ?_⟩
  · intro hg hy
    have hnot1 : ¬(withinGap s.bodies ∧ s.bodies.ball.position.y < PITCH_MARGIN + 6) := by
      rintro ⟨-, h26⟩
      norm_num [height, PITCH_MARGIN] at hy h26
      linarith
    unfold checkGoals
    rw [if_neg hnot1, if_pos ⟨hg, hy⟩]
    exact ⟨rfl, rfl, rfl, rfl, rfl⟩
  · intro hx hy
    have hg : withinGap s.bodies := by
      constructor <;> rw [hx] <;> norm_num [width, GOAL_WIDTH]
    have hy6 : s.bodies.ball.position.y < PITCH_MARGIN + 6 := by
      rw [hy]
      norm_num
    obtain ⟨ha, -, hbodies, -, -⟩ := h1 hg hy6
    refine ⟨ha, ?_⟩
    rw [hbodies]
    rfl

/-- Witness for `goal_detection_spec`: the concrete state `w3State` has
the ball at `(width/2, PITCH_MARGIN + 3)`; one `checkGoals` increments
`scoreA` and recenters the ball. -/
theorem goal_detection_spec_witness :
    (checkGoals w3State).scoreA = w3State.scoreA + 1 ∧
    (checkGoals w3State).bodies.ball.position = ⟨width / 2, height / 2⟩ :=
  (goal_detection_spec w3State).2.2.2 rfl rfl

/-! ### C4: the settle gate -/

theorem onPointerDown_waiting (s : GameState) (pos : Vec2) :
    (onPointerDown s pos).waitingForSettle = s.waitingForSettle := by
  unfold onPointerDown
  split
  · rfl
  · cases pickBodyAt s.bodies pos
    · rfl
    · dsimp only
      split
      · rfl
      · rfl

theorem sessionInv_checkGoals {s : GameState} (h : sessionInv s) :
    sessionInv (checkGoals s) := by
  unfold checkGoals
  split
  · intro _
    rfl
  · split
    · intro _
      rfl
    · exact h

theorem sessionInv_switchTurnIfSettle {s : GameState} (h : sessionInv s) :
    sessionInv (switchTurnIfSettle s) := by
  unfold switchTurnIfSettle
  split
  · intro _
    rfl
  · exact h

/-- C4: a pointer-down while a settle is pending is a silent no-op (the
whole state is unchanged, so no aim session opens); moreover the
invariant `aiming → ¬waitingForSettle` holds initially, is preserved by
every operation, and under it a pointer-up while a settle is pending is
also a no-op, so no flick is ever applied while `waitingForSettle`
holds. -/
theorem settle_gate_spec (s : GameState) (pos : Vec2) :
    (s.waitingForSettle = true → onPointerDown s pos = s) ∧
    (sessionInv s →
      sessionInv (onPointerDown s pos) ∧ sessionInv (onPointerMove s pos) ∧
      sessionInv (onPointerUp s) ∧ sessionInv (tick s) ∧ sessionInv (reset s)) ∧
    (sessionInv s → s.waitingForSettle = true → onPointerUp s = s) ∧
    sessionInv initialState := by
  have hdown : s.waitingForSettle = true → onPointerDown s pos = s := by
    intro h
    unfold onPointerDown
    rw [if_pos h]
  refine ⟨hdown, ?_, ?_, ?_⟩
  · intro hI
    refine ⟨?_, ?_, ?_, ?_, ?_⟩
    · by_cases hw : s.waitingForSettle = true
      · rw [hdown hw]
        exact hI
      · intro _
        rw [onPointerDown_waiting]
        rwa [Bool.not_eq_true] at hw
    · intro ha
      exact hI ha
    · by_cases ha : s.aiming = true
      · cases hb : s.aimedBody
        · unfold onPointerUp
          rw [if_pos ha, hb]
          exact hI
        · unfold onPointerUp
          rw [if_pos ha, hb]
          intro hcon
          exact absurd hcon (by simp)
      · unfold onPointerUp
        rw [if_neg ha]
        exact hI
    · exact sessionInv_switchTurnIfSettle (sessionInv_checkGoals hI)
    · intro _
      rfl
  · intro hI hw
    have ha : s.aiming = false := by
      cases haim : s.aiming
      · rfl
      · rw [hI haim] at hw
        exact absurd hw (by simp)
    unfold onPointerUp
    rw [if_neg (by simp [ha])]
  · intro _
    rfl

/-- Witness for `settle_gate_spec`: in the concrete waiting state
`w4State`, a pointer-down changes nothing. -/
theorem settle_gate_spec_witness : onPointerDown w4State ⟨0, 0⟩ = w4State :=
  (settle_gate_spec w4State ⟨0, 0⟩).1 rfl

/-! ### C5: ownership of the picked disc -/

theorem isOwnPiece_eq_sideDisc {s : GameState} {b : BodyId}
    (h : isOwnPiece s b = true) : ∃ i, b = sideDisc s.currentSide i := by
  unfold isOwnPiece at h
  cases hcs : s.currentSide <;> rw [hcs] at h <;> cases b <;> simp at h <;> exact ⟨_, rfl⟩

/-- C5: a pointer-down either leaves the aim target and aim flag exactly
as they were, or opens a session whose target is the picked body and is
a disc of the roster of the side to move — never the ball and never an
opposing disc. -/
theorem ownership_spec (s : GameState) (pos : Vec2) :
    ((onPointerDown s pos).aimedBody = s.aimedBody ∧
      (onPointerDown s pos).aiming = s.aiming) ∨
    (∃ i, (onPointerDown s pos).aimedBody = some (sideDisc s.currentSide i) ∧
      pickBodyAt s.bodies pos = some (sideDisc s.currentSide i)) := by
  unfold onPointerDown
  split
  · left
    exact ⟨rfl, rfl⟩
  · cases hpick : pickBodyAt s.bodies pos
    · left
      exact ⟨rfl, rfl⟩
    · rename_i b
      dsimp only
      split
      · rename_i hcond
        right
        obtain ⟨i, rfl⟩ : ∃ i, b = sideDisc s.currentSide i :=
          isOwnPiece_eq_sideDisc hcond.2
        exact ⟨i, rfl, rfl⟩
      · left
        exact ⟨rfl, rfl⟩

/-! ### C6: the reset command -/

/-- C6: the user reset command, in any state, recenters the ball, puts
all six discs back on their canonical slots with zero linear and angular
velocities, forces side A to move with no settle pending, and leaves
both scores unchanged. -/
theorem reset_spec (s : GameState) :
    (reset s).bodies.ball.position = ⟨width / 2, height / 2⟩ ∧
    (reset s).bodies.ball.velocity = ⟨0, 0⟩ ∧
    (reset s).bodies.ball.angularVelocity = 0 ∧
    ((reset s).bodies.teamA 0).position = ⟨width / 2 - 80, height - 160⟩ ∧
    ((reset s).bodies.teamA 1).position = ⟨width / 2, height - 160⟩ ∧
    ((reset s).bodies.teamA 2).position = ⟨width / 2 + 80, height - 160⟩ ∧
    ((reset s).bodies.teamB 0).position = ⟨width / 2 - 80, 160⟩ ∧
    ((reset s).bodies.teamB 1).position = ⟨width / 2, 160⟩ ∧
    ((reset s).bodies.teamB 2).position = ⟨width / 2 + 80, 160⟩ ∧
    (∀ i, ((reset s).bodies.teamA i).velocity = ⟨0, 0⟩ ∧
      ((reset s).bodies.teamA i).angularVelocity = 0) ∧
    (∀ i, ((reset s).bodies.teamB i).velocity = ⟨0, 0⟩ ∧
      ((reset s).bodies.teamB i).angularVelocity = 0) ∧
    (reset s).currentSide = Side.A ∧
    (reset s).waitingForSettle = false ∧
    (reset s).scoreA = s.scoreA ∧ (reset s).scoreB = s.scoreB := by
  refine ⟨rfl, rfl, rfl, ?_, ?_, ?_, ?_, ?_, ?_,
    fun i => ⟨rfl, rfl⟩, fun i => ⟨rfl, rfl⟩, rfl, rfl, rfl, rfl⟩ <;>
  · ext <;>
      simp [reset, resetPositions, resetBodies, slotOffset, Matrix.cons_val_zero,
        Matrix.cons_val_one, Matrix.cons_val_two, Matrix.head_cons, Matrix.tail_cons] <;>
      ring

/-! ### C8: goal-post geometry -/

/-- C8: evaluation of the post geometry at the configured dimensions
(`width = 900`, `margin = 20`, `goalWidth = 160`).  Both right posts span
`[goalX2, width - PITCH_MARGIN] = [530, 880]` as described, and every
post is 8 units thick with its center 10 units inside the boundary; but
both left posts span `[10, 360]` instead of `[PITCH_MARGIN, goalX1] =
[20, 370]`: the code centers them at `goalX1 / 2` instead of
`(PITCH_MARGIN + goalX1) / 2`, so the physical gap `(360, 530)` is 170
wide and off-center while the goal detector and the painted goal line
both use `(370, 530)`. -/
theorem post_span_eval :
    spanLo topL = 10 ∧ spanHi topL = 360 ∧
    spanLo botL = 10 ∧ spanHi botL = 360 ∧
    spanLo topR = 530 ∧ spanHi topR = 880 ∧
    spanLo botR = 530 ∧ spanHi botR = 880 ∧
    topL.h = 8 ∧ topR.h = 8 ∧ botL.h = 8 ∧ botR.h = 8 ∧
    topL.cy = PITCH_MARGIN + 10 ∧ botL.cy = height - PITCH_MARGIN - 10 ∧
    (PITCH_MARGIN : ℝ) = 20 ∧ goalX1 = 370 ∧ goalX2 = 530 ∧
    width - PITCH_MARGIN = 880 ∧
    spanLo topL ≠ PITCH_MARGIN ∧ spanHi topL ≠ goalX1 := by
  norm_num [spanLo, spanHi, topL, topR, botL, botR, goalX1, goalX2, width, height,
    PITCH_MARGIN, GOAL_WIDTH]

/-! ### C10: the initial layout is the reset layout -/

theorem resetBodies_eq_initBodies : resetBodies = initBodies := by
  unfold resetBodies initBodies
  refine Bodies.ext ?_ ?_ ?_
  · rfl
  · funext i
    fin_cases i <;> (ext <;> simp [slotOffset, restBody] <;> ring)
  · funext i
    fin_cases i <;> (ext <;> simp [slotOffset, restBody] <;> ring)

/-- C10: the positions and velocities created at match setup coincide
with the canonical reset layout, so the reset command leaves the freshly
initialized state unchanged. -/
theorem reset_initial_identity : reset initialState = initialState := by
  unfold reset resetPositions
  rw [resetBodies_eq_initBodies]
  rfl

/-! ### C7: body picking -/

theorem findCircle_some (bs : Bodies) (pos : Vec2) :
    ∀ (l : List BodyId) (b : BodyId), findCircle bs pos l = some b →
      inRange bs pos b ∧ ∃ l1 l2, l = l1 ++ b :: l2 ∧ ∀ a ∈ l1, ¬ inRange bs pos a := by
  intro l
  induction l with
  | nil =>
    intro b h
    exact absurd h (by simp [findCircle])
  | cons c rest ih =>
    intro b h
    unfold findCircle at h
    by_cases hc : distTo (bodyState bs c) pos ≤ circleRadius c + 1
    · rw [if_pos hc] at h
      obtain rfl : c = b := Option.some.inj h
      exact ⟨hc, [], rest, rfl, by simp⟩
    · rw [if_neg hc] at h
      obtain ⟨hb, l1, l2, hl, hall⟩ := ih b h
      refine ⟨hb, c :: l1, l2, by rw [hl]; rfl, ?_⟩
      intro a ha
      rcases List.mem_cons.mp ha with rfl | ha2
      · exact hc
      · exact hall a ha2

theorem findCircle_none (bs : Bodies) (pos : Vec2) :
    ∀ l : List BodyId, findCircle bs pos l = none ↔ ∀ b ∈ l, ¬ inRange bs pos b := by
  intro l
  induction l with
  | nil => simp [findCircle]
  | cons c rest ih =>
    unfold findCircle
    by_cases hc : distTo (bodyState bs c) pos ≤ circleRadius c + 1
    · rw [if_pos hc]
      constructor
      · intro h
        exact absurd h (by simp)
      · intro h
        exact absurd hc (h c (List.mem_cons_self c rest))
    · rw [if_neg hc, ih]
      constructor
      · intro h b hb
        rcases List.mem_cons.mp hb with rfl | hb2
        · exact hc
        · exact h b hb2
      · intro h b hb
        exact h b (List.mem_cons_of_mem c hb)

theorem mem_circleOrder (b : BodyId) : b ∈ circleOrder := by
  cases b with
  | ball => simp [circleOrder]
  | discA i => fin_cases i <;> simp [circleOrder]
  | discB i => fin_cases i <;> simp [circleOrder]

/-- C7 (amended): `pickBodyAt` returns the first circular body in
registration order (the ball, then team A's discs, then team B's discs)
whose center lies within `circleRadius + 1` of the query position, and
returns none exactly when no circular body's center is within that
distance. -/
theorem pick_first_in_range (bs : Bodies) (pos : Vec2) :
    (∀ b : BodyId, pickBodyAt bs pos = some b →
      inRange bs pos b ∧
      ∃ l1 l2, circleOrder = l1 ++ b :: l2 ∧ ∀ a ∈ l1, ¬ inRange bs pos a) ∧
    (pickBodyAt bs pos = none ↔ ∀ b : BodyId, ¬ inRange bs pos b) := by
  constructor
  · intro b h
    exact findCircle_some bs pos circleOrder b h
  · rw [show pickBodyAt bs pos = findCircle bs pos circleOrder from rfl, findCircle_none]
    constructor
    · intro h b
      exact h b (mem_circleOrder b)
    · intro h b _
      exact h b

theorem c7_dist_ball : distTo (bodyState c7Bodies BodyId.ball) c7Pos = 331 := by
  show hypot (450 - 119) (300 - 300) = 331
  rw [show (450 : ℝ) - 119 = 331 by norm_num, show (300 : ℝ) - 300 = 0 by norm_num]
  exact @hypot_eq 331 0 331 (by norm_num) (by norm_num)

theorem c7_dist_A0 : distTo (bodyState c7Bodies (BodyId.discA 0)) c7Pos = 19 := by
  have hb : bodyState c7Bodies (BodyId.discA 0) = restBody 100 300 := by
    show c7Bodies.teamA 0 = restBody 100 300
    simp [c7Bodies]
  rw [hb]
  show hypot (100 - 119) (300 - 300) = 19
  rw [show (100 : ℝ) - 119 = -19 by norm_num, show (300 : ℝ) - 300 = 0 by norm_num]
  exact @hypot_eq (-19) 0 19 (by norm_num) (by norm_num)

theorem c7_dist_A1 : distTo (bodyState c7Bodies (BodyId.discA 1)) c7Pos = 17 := by
  have hb : bodyState c7Bodies (BodyId.discA 1) = restBody 136 300 := by
    show c7Bodies.teamA 1 = restBody 136 300
    simp [c7Bodies]
  rw [hb]
  show hypot (136 - 119) (300 - 300) = 17
  rw [show (136 : ℝ) - 119 = 17 by norm_num, show (300 : ℝ) - 300 = 0 by norm_num]
  exact @hypot_eq 17 0 17 (by norm_num) (by norm_num)

theorem pick_eval_c7 : pickBodyAt c7Bodies c7Pos = some (BodyId.discA 0) := by
  have hball : ¬ (distTo (bodyState c7Bodies BodyId.ball) c7Pos
      ≤ circleRadius BodyId.ball + 1) := by
    rw [c7_dist_ball]
    norm_num [circleRadius, BALL_R]
  have hA0 : distTo (bodyState c7Bodies (BodyId.discA 0)) c7Pos
      ≤ circleRadius (BodyId.discA 0) + 1 := by
    rw [c7_dist_A0]
    norm_num [circleRadius, DISC_R]
  simp only [pickBodyAt, circleOrder, findCircle]
  rw [if_neg hball, if_pos hA0]

/-- C7 counterexample: at the concrete query position `c7Pos` the picker
returns disc A0 (distance 19) although disc A1 is also in range and
strictly closer (distance 17), so `pickBodyAt` does not return the
closest in-range circular body. -/
theorem pick_not_closest :
    pickBodyAt c7Bodies c7Pos = some (BodyId.discA 0) ∧
    inRange c7Bodies c7Pos (BodyId.discA 1) ∧
    distTo (bodyState c7Bodies (BodyId.discA 1)) c7Pos
      < distTo (bodyState c7Bodies (BodyId.discA 0)) c7Pos := by
  refine ⟨pick_eval_c7, ?_, ?_⟩
  · show distTo (bodyState c7Bodies (BodyId.discA 1)) c7Pos
      ≤ circleRadius (BodyId.discA 1) + 1
    rw [c7_dist_A1]
    norm_num [circleRadius, DISC_R]
  · rw [c7_dist_A0, c7_dist_A1]
    norm_num

/-- Witness for `pick_first_in_range`: applied to the concrete bodies
`c7Bodies` and query `c7Pos`, where the pick is disc A0. -/
theorem pick_first_in_range_witness :
    inRange c7Bodies c7Pos (BodyId.discA 0) ∧
    ∃ l1 l2, circleOrder = l1 ++ BodyId.discA 0 :: l2 ∧
      ∀ a ∈ l1, ¬ inRange c7Bodies c7Pos a :=
  (pick_first_in_range c7Bodies c7Pos).1 (BodyId.discA 0) pick_eval_c7

/-! ### C9: a second pointer-down during an open aim session -/

theorem c9_dist_A0 : distTo (bodyState c9State.bodies (BodyId.discA 0)) c9Pos = 160 := by
  have hb : bodyState c9State.bodies (BodyId.discA 0)
      = restBody (width / 2 - 80) (height - 160) := by
    show initBodies.teamA 0 = restBody (width / 2 - 80) (height - 160)
    simp [initBodies]
  rw [hb]
  show hypot (width / 2 - 80 - 530) (height - 160 - 440) = 160
  rw [show width / 2 - 80 - 530 = -160 by norm_num [width],
    show height - 160 - 440 = 0 by norm_num [height]]
  exact @hypot_eq (-160) 0 160 (by norm_num) (by norm_num)

theorem c9_dist_A1 : distTo (bodyState c9State.bodies (BodyId.discA 1)) c9Pos = 80 := by
  have hb : bodyState c9State.bodies (BodyId.discA 1)
      = restBody (width / 2) (height - 160) := by
    show initBodies.teamA 1 = restBody (width / 2) (height - 160)
    simp [initBodies]
  rw [hb]
  show hypot (width / 2 - 530) (height - 160 - 440) = 80
  rw [show width / 2 - 530 = -80 by norm_num [width],
    show height - 160 - 440 = 0 by norm_num [height]]
  exact @hypot_eq (-80) 0 80 (by norm_num) (by norm_num)

theorem c9_dist_A2 : distTo (bodyState c9State.bodies (BodyId.discA 2)) c9Pos = 0 := by
  have hb : bodyState c9State.bodies (BodyId.discA 2)
      = restBody (width / 2 + 80) (height - 160) := by
    show initBodies.teamA 2 = restBody (width / 2 + 80) (height - 160)
    simp [initBodies]
  rw [hb]
  show hypot (width / 2 + 80 - 530) (height - 160 - 440) = 0
  rw [show width / 2 + 80 - 530 = 0 by norm_num [width],
    show height - 160 - 440 = 0 by norm_num [height]]
  exact hypot_zero

theorem pick_eval_c9 : pickBodyAt c9State.bodies c9Pos = some (BodyId.discA 2) := by
  have hball : ¬ (distTo (bodyState c9State.bodies BodyId.ball) c9Pos
      ≤ circleRadius BodyId.ball + 1) := by
    rw [not_le]
    show circleRadius BodyId.ball + 1 < hypot (width / 2 - 530) (height / 2 - 440)
    rw [show circleRadius BodyId.ball + 1 = 11 by norm_num [circleRadius, BALL_R],
      show width / 2 - 530 = -80 by norm_num [width],
      show height / 2 - 440 = -140 by norm_num [height],
      lt_hypot_iff (by norm_num)]
    norm_num
  have h0 : ¬ (distTo (bodyState c9State.bodies (BodyId.discA 0)) c9Pos
      ≤ circleRadius (BodyId.discA 0) + 1) := by
    rw [c9_dist_A0]
    norm_num [circleRadius, DISC_R]
  have h1 : ¬ (distTo (bodyState c9State.bodies (BodyId.discA 1)) c9Pos
      ≤ circleRadius (BodyId.discA 1) + 1) := by
    rw [c9_dist_A1]
    norm_num [circleRadius, DISC_R]
  have h2 : distTo (bodyState c9State.bodies (BodyId.discA 2)) c9Pos
      ≤ circleRadius (BodyId.discA 2) + 1 := by
    rw [c9_dist_A2]
    norm_num [circleRadius, DISC_R]
  simp only [pickBodyAt, circleOrder, findCircle]
  rw [if_neg hball, if_neg h0, if_neg h1, if_pos h2]

/-- C9 counterexample: with an aim session already open on disc A0 and
no settle pending, a pointer-down over disc A2 is not rejected: it
retargets the session, changing the currently targeted disc. -/
theorem second_down_retargets :
    c9State.aiming = true ∧ c9State.aimedBody = some (BodyId.discA 0) ∧
    c9State.waitingForSettle = false ∧
    (onPointerDown c9State c9Pos).aimedBody = some (BodyId.discA 2) ∧
    (onPointerDown c9State c9Pos).aimedBody ≠ c9State.aimedBody := by
  have hres : (onPointerDown c9State c9Pos).aimedBody = some (BodyId.discA 2) := by
    unfold onPointerDown
    rw [if_neg (show ¬(c9State.waitingForSettle = true) from by simp [c9State, initialState]),
      pick_eval_c9]
    dsimp only
    rw [if_pos ⟨by simp, rfl⟩]
  refine ⟨rfl, rfl, rfl, hres, ?_⟩
  rw [hres]
  show ¬ some (BodyId.discA 2) = some (BodyId.discA 0)
  simp

/-- C9 (amended): only one aim-session slot exists, but a second
pointer-down while a session is open (no settle pending, still aiming)
is handled like any pointer-down rather than rejected: the live cursor
is updated, and the single session either keeps its target or is
retargeted to the picked own disc; turn, settle flag, scores and bodies
are unchanged and the session stays open. -/
theorem second_down_behavior (s : GameState) (pos : Vec2)
    (hw : s.waitingForSettle = false) (ha : s.aiming = true) :
    (onPointerDown s pos).mousePos = pos ∧
    (onPointerDown s pos).aiming = true ∧
    ((onPointerDown s pos).aimedBody = s.aimedBody ∨
      ∃ i, (onPointerDown s pos).aimedBody = some (sideDisc s.currentSide i)) ∧
    (onPointerDown s pos).currentSide = s.currentSide ∧
    (onPointerDown s pos).waitingForSettle = false ∧
    (onPointerDown s pos).scoreA = s.scoreA ∧
    (onPointerDown s pos).scoreB = s.scoreB ∧
    (onPointerDown s pos).bodies = s.bodies := by
  have hw' : ¬ s.waitingForSettle = true := by simp [hw]
  unfold onPointerDown
  rw [if_neg hw']
  cases hpick : pickBodyAt s.bodies pos
  · exact ⟨rfl, ha, Or.inl rfl, rfl, hw, rfl, rfl, rfl⟩
  · rename_i b
    dsimp only
    split
    · rename_i hcond
      obtain ⟨i, rfl⟩ := isOwnPiece_eq_sideDisc hcond.2
      exact ⟨rfl, rfl, Or.inr ⟨i, rfl⟩, rfl, hw, rfl, rfl, rfl⟩
    · exact ⟨rfl, ha, Or.inl rfl, rfl, hw, rfl, rfl, rfl⟩

/-- Witness for `second_down_behavior`: the concrete session `c9State`
with pointer position `c9Pos`. -/
theorem second_down_behavior_witness :
    (onPointerDown c9State c9Pos).mousePos = c9Pos ∧
    (onPointerDown c9State c9Pos).aiming = true :=
  ⟨(second_down_behavior c9State c9Pos rfl rfl).1,
   (second_down_behavior c9State c9Pos rfl rfl).2.1⟩
